import Mathlib

/-!
Verification of the instrument-control core of the Siglent-Oscilloscope
repository: the binary waveform codec (`siglent/waveform.py`), the DAQ
capability registry (`scpi_control/daq_models.py`), the DAQ SCPI command
catalog (`scpi_control/daq_scpi_commands.py`), the AWG channel setters
(`scpi_control/awg_output.py`) and the TCP transport error paths
(`siglent/connection/socket.py`), shallowly embedded in Lean.

Bytes are modelled as `Nat` (0..255), Python `float` as `ℚ` (every
computation the theorems touch is exact), Python exceptions as explicit
error constructors in `Except` results.
-/

/-! ## Python primitive semantics -/

/-- An exception escaping `Waveform._parse_waveform`.  The source raises
`exceptions.CommandError` only at the missing-`#` check; the other failure
paths let builtin `ValueError` / `IndexError` escape. -/
inductive PyExc where
  | commandError (msg : String)
  | valueError
  | indexError
  | invalidParameterError (msg : String)
  deriving DecidableEq, Repr

/-- ASCII decimal digit byte. -/
def isPyDigitByte (b : Nat) : Bool := 48 ≤ b && b ≤ 57

/-- ASCII whitespace bytes accepted by Python `int(bytes)` around the number. -/
def isPySpaceByte (b : Nat) : Bool :=
  b == 32 || b == 9 || b == 10 || b == 13 || b == 11 || b == 12

/-- Strip leading and trailing ASCII whitespace from a byte list. -/
def stripWsBytes (l : List Nat) : List Nat :=
  ((l.dropWhile isPySpaceByte).reverse.dropWhile isPySpaceByte).reverse

/-- Digit-group validity for Python `int`: nonempty digits, with single
underscores allowed only between digits. -/
def pyDigitGroupOk : List Nat → Bool
  | [] => false
  | [b] => isPyDigitByte b
  | b :: 95 :: rest => isPyDigitByte b && pyDigitGroupOk rest
  | b :: rest => isPyDigitByte b && pyDigitGroupOk rest

/-- Numeric value of a digit/underscore byte list (underscores skipped). -/
def digitsVal (l : List Nat) : Nat :=
  l.foldl (fun acc b => if b == 95 then acc else acc * 10 + (b - 48)) 0

/-- Python `int(bytes)` (base 10): strip ASCII whitespace, optional single
sign, then digit groups; anything else raises `ValueError`, modelled as
`none`. -/
def pyIntOfBytes (l : List Nat) : Option Int :=
  match stripWsBytes l with
  | 43 :: rest => if pyDigitGroupOk rest then some (digitsVal rest) else none
  | 45 :: rest => if pyDigitGroupOk rest then some (-(digitsVal rest : Int)) else none
  | rest => if pyDigitGroupOk rest then some (digitsVal rest) else none

/-- Python list/bytes slicing `l[a:b]` with step 1: negative indices count
from the end, then both bounds are clamped to `[0, len]`. -/
def pySlice {α : Type} (l : List α) (a b : Int) : List α :=
  let n : Int := l.length
  let norm : Int → Nat := fun i =>
    let i2 := if i < 0 then i + n else i
    if i2 < 0 then 0 else if i2 > n then l.length else i2.toNat
  let lo := norm a
  let hi := norm b
  (l.take hi).drop lo

/-- `np.int8` reinterpretation of one byte (two's complement). -/
def int8OfByte (b : Nat) : Int :=
  if b < 128 then (b : Int) else (b : Int) - 256

/-- `np.int16` little-endian reinterpretation of consecutive byte pairs
(two's complement); a trailing odd byte never occurs on the call path
because the length is checked first. -/
def int16OfBytes : List Nat → List Int
  | lo :: hi :: rest =>
    (let v := lo + 256 * hi
     if v < 32768 then (v : Int) else (v : Int) - 65536) :: int16OfBytes rest
  | _ => []

/-! ## WaveformCodec (`siglent/waveform.py`) -/

/-- `Waveform._parse_waveform(raw_data, format)`: locate `#`, read the
length-of-length digit, the ASCII length field, slice the payload and
reinterpret it as int8 / little-endian int16 codes.

Source tracing:
* `raw_data.find(b"#") == -1` → `CommandError("Invalid waveform format: no # found")`;
* `n_digits = int(chr(raw_data[header_end + 1]))`: `IndexError` if out of
  range, `ValueError` if the byte is not an ASCII decimal digit;
* `data_length = int(raw_data[header_end+2 : header_end+2+n_digits])`:
  the slice silently truncates, `int` raises `ValueError` on an empty or
  non-numeric field (`pyIntOfBytes`);
* `binary_data = raw_data[data_start : data_start+data_length]` silently
  truncates when fewer than `data_length` bytes remain;
* `np.frombuffer(..., dtype=np.int16)` raises `ValueError` when the buffer
  length is odd; other format strings raise `InvalidParameterError`. -/
def parse_waveform (raw : List Nat) (format : String) : Except PyExc (List Int) :=
  match raw.findIdx? (· == 35) with
  | none => .error (.commandError "Invalid waveform format: no # found")
  | some header_end =>
    match raw[header_end + 1]? with
    | none => .error .indexError
    | some b =>
      if isPyDigitByte b then
        let n_digits := b - 48
        match pyIntOfBytes (pySlice raw (header_end + 2) (header_end + 2 + n_digits)) with
        | none => .error .valueError
        | some data_length =>
          let data_start : Int := (header_end : Int) + 2 + n_digits
          let binary_data := pySlice raw data_start (data_start + data_length)
          if format = "BYTE" then
            .ok (binary_data.map int8OfByte)
          else if format = "WORD" then
            if binary_data.length % 2 = 0 then
              .ok (int16OfBytes binary_data)
            else
              .error .valueError
          else
            .error (.invalidParameterError ("Invalid format: " ++ format))
      else .error .valueError

/-- `Waveform._convert_to_voltage(codes, voltage_scale, voltage_offset)`:
`code_per_div` is 25 for int8 codes and 6400 for int16 codes (the dtype
test in the source corresponds to the format the codes were parsed with),
`code_center = 0` in both branches. -/
def convert_to_voltage (codes : List Int) (isWord : Bool)
    (voltage_scale voltage_offset : ℚ) : List ℚ :=
  let code_per_div : ℚ := if isWord then 6400 else 25
  let code_center : ℚ := 0
  codes.map (fun (c : Int) => ((c : ℚ) - code_center) * (voltage_scale / code_per_div) - voltage_offset)

/-- `Waveform._generate_time_axis(num_samples, sample_rate, timebase)`:
`dt = 1/sample_rate`, trigger assumed at the record midpoint; `timebase`
is accepted and unused, as in the source.  Division by zero is excluded
by hypothesis in the theorems (Python would raise `ZeroDivisionError`). -/
def generate_time_axis (num_samples : Nat) (sample_rate _timebase : ℚ) : List ℚ :=
  let dt : ℚ := 1 / sample_rate
  let total_time : ℚ := num_samples * dt
  let trigger_position : ℚ := total_time / 2
  (List.range num_samples).map (fun (i : Nat) => (i : ℚ) * dt - trigger_position)

/-- ASCII bytes of a string literal (for concrete raw-block inputs). -/
def strBytes (s : String) : List Nat := s.toList.map Char.toNat

/-! ## Theorems: waveform codec -/

/-- C1: the spec (and the repository's own `test_waveform_parsing.py`)
demand a distinct named `CommandError` on every malformed block.  The code
raises `CommandError` only for a missing `#`; evaluating `parse_waveform`
on the failure inputs shows: a payload shorter than the declared length
(`b"DESC,#15abcd"`, declared 5, available 4) is silently truncated and
decodes successfully, and non-digit length digit / zero length digit /
truncated length field / odd WORD payload all raise builtin `ValueError`
rather than `CommandError`. -/
theorem parse_waveform_lacks_specific_command_errors :
    parse_waveform (strBytes "DESC,#15abcd") "BYTE" = .ok [97, 98, 99, 100] ∧
    parse_waveform (strBytes "DESC,#X4") "BYTE" = .error .valueError ∧
    parse_waveform (strBytes "DESC,#04") "BYTE" = .error .valueError ∧
    parse_waveform (strBytes "DESC,#1") "BYTE" = .error .valueError ∧
    parse_waveform (strBytes "DESC,#13abc") "WORD" = .error .valueError :=
  ⟨rfl, rfl, rfl, rfl, rfl⟩

/-- C2: every converted sample obeys
`voltage[i] = (code[i] - 0) * (voltage_scale / code_per_div) - voltage_offset`
with `code_per_div = 25` for BYTE codes and `6400` for WORD codes; and
Scenario D: `b"DESC,#14" + bytes([0,25,50,75])` decoded as BYTE with
scale 1, offset 0 yields voltages `[0, 1, 2, 3]`. -/
theorem convert_to_voltage_formula :
    (∀ (codes : List Int) (isWord : Bool) (scale offset : ℚ) (i : Nat),
       (convert_to_voltage codes isWord scale offset)[i]? =
         (codes[i]?).map
           (fun (c : Int) => ((c : ℚ) - 0) * (scale / (if isWord then 6400 else 25)) - offset)) ∧
    parse_waveform (strBytes "DESC,#14" ++ [0, 25, 50, 75]) "BYTE" = .ok [0, 25, 50, 75] ∧
    convert_to_voltage [0, 25, 50, 75] false 1 0 = [0, 1, 2, 3] := by
  refine ⟨?_, rfl, ?_⟩
  · intro codes isWord scale offset i
    simp only [convert_to_voltage, List.getElem?_map]
  · norm_num [convert_to_voltage]

/-- C8: the time axis of an `n`-sample record at sample rate `r` satisfies
`time[i] = i*dt - (n*dt)/2` with `dt = 1/r`: the trigger instant sits at
the record midpoint. -/
theorem generate_time_axis_trigger_centered :
    ∀ (n : Nat) (r tb : ℚ) (i : Nat), 0 < r → i < n →
      (generate_time_axis n r tb)[i]? =
        some ((i : ℚ) * (1 / r) - ((n : ℚ) * (1 / r)) / 2) := by
  intro n r tb i hr hi
  simp [generate_time_axis, List.getElem?_map, List.getElem?_range, hi]

/-- Witness for C8 at `n = 4`, `r = 1000`: `time[0] = -1/500`, the value
the repository's `test_acquire_uses_mock_connection_defaults` expects. -/
theorem generate_time_axis_trigger_centered_witness :
    (generate_time_axis 4 1000 (1/1000))[0]? =
      some (((0 : Nat) : ℚ) * (1 / 1000) - (((4 : Nat) : ℚ) * (1 / 1000)) / 2) :=
  generate_time_axis_trigger_centered 4 1000 (1/1000) 0 (by norm_num) (by norm_num)

/-! ## Python string semantics -/

/-- `s.split(",")` accumulator: Python keeps empty fields and returns
`[""]` for the empty string. -/
def splitCommaAux : List Char → List Char → List String
  | [], acc => [String.mk acc.reverse]
  | ',' :: cs, acc => String.mk acc.reverse :: splitCommaAux cs []
  | c :: cs, acc => splitCommaAux cs (c :: acc)

/-- Python `s.split(",")`. -/
def pySplitComma (s : String) : List String := splitCommaAux s.toList []

/-- ASCII whitespace characters stripped by Python `str.strip()` (the
inputs in play are ASCII, so the extra Unicode whitespace Python also
strips never occurs). -/
def isPyWsChar (c : Char) : Bool :=
  c == ' ' || c == '\t' || c == '\n' || c == '\r' || c == '\x0b' || c == '\x0c'

/-- Python `s.strip()`. -/
def pyStrip (s : String) : String :=
  String.mk (((s.toList.dropWhile isPyWsChar).reverse.dropWhile isPyWsChar).reverse)

/-- Contiguous-sublist test: `needle` occurs inside `hay`. -/
def listContains {α : Type} [BEq α] (hay needle : List α) : Bool :=
  match hay with
  | [] => needle.isEmpty
  | _ :: t => needle.isPrefixOf hay || listContains t needle

/-- Python `needle in hay` on strings: contiguous substring test. -/
def containsSubstr (hay needle : String) : Bool :=
  listContains hay.toList needle.toList

/-- `re.sub(r"[\s\-_]", "", s).upper()`: drop whitespace, hyphen and
underscore, then ASCII-uppercase. -/
def normalizeModel (s : String) : String :=
  String.mk ((s.toList.filter (fun c => !(isPyWsChar c || c == '-' || c == '_'))).map Char.toUpper)

/-! ## CapabilityRegistry (`scpi_control/daq_models.py`) -/

/-- `MeasurementFunction` enum members. -/
inductive MeasurementFunction where
  | VOLTAGE_DC | VOLTAGE_AC | CURRENT_DC | CURRENT_AC
  | RESISTANCE_2W | RESISTANCE_4W | FREQUENCY | PERIOD
  | TEMPERATURE | CONTINUITY | DIODE | DIGITAL_INPUT
  | DIGITAL_OUTPUT | TOTALIZER
  deriving DecidableEq, Repr

/-- `ModuleSpec` dataclass. -/
structure ModuleSpec where
  slot : Nat
  module_type : String
  num_channels : Nat
  channel_start : Nat
  supported_functions : List MeasurementFunction
  max_voltage : ℚ := 300
  max_current : ℚ := 1
  has_switching : Bool := true
  description : String := ""
  deriving DecidableEq, Repr

/-- `DAQCapability` dataclass. -/
structure DAQCapability where
  model_name : String
  manufacturer : String
  num_slots : Nat
  modules : List ModuleSpec := []
  has_internal_dmm : Bool := true
  dmm_resolution : ℚ := 6.5
  max_sample_rate : ℚ := 250
  memory_readings : Nat := 50000
  has_timestamp : Bool := true
  has_alarm : Bool := true
  has_math : Bool := true
  scpi_variant : String := "generic"
  deriving DecidableEq, Repr

/-- `MULTIPLEXER_20CH(slot)` module constructor. -/
def MULTIPLEXER_20CH (slot : Nat) : ModuleSpec :=
  { slot := slot
    module_type := "34901A"
    num_channels := 20
    channel_start := slot * 100 + 1
    supported_functions :=
      [.VOLTAGE_DC, .VOLTAGE_AC, .CURRENT_DC, .CURRENT_AC, .RESISTANCE_2W,
       .RESISTANCE_4W, .FREQUENCY, .PERIOD, .TEMPERATURE]
    max_voltage := 300
    description := "20-Channel Multiplexer (2/4-wire)" }

/-- `DAQ_MODEL_REGISTRY` as an insertion-ordered association list (Python
dict iteration follows insertion order). -/
def DAQ_MODEL_REGISTRY : List (String × DAQCapability) :=
  [("34970A",
    { model_name := "34970A", manufacturer := "Keysight", num_slots := 3
      modules := [MULTIPLEXER_20CH 1]
      has_internal_dmm := true, dmm_resolution := 6.5, max_sample_rate := 250
      memory_readings := 50000, has_timestamp := true, has_alarm := true
      has_math := true, scpi_variant := "keysight_daq" }),
   ("34972A",
    { model_name := "34972A", manufacturer := "Keysight", num_slots := 3
      modules := [MULTIPLEXER_20CH 1]
      has_internal_dmm := true, dmm_resolution := 6.5, max_sample_rate := 250
      memory_readings := 50000, has_timestamp := true, has_alarm := true
      has_math := true, scpi_variant := "keysight_daq" }),
   ("DAQ970A",
    { model_name := "DAQ970A", manufacturer := "Keysight", num_slots := 3
      modules := [MULTIPLEXER_20CH 1]
      has_internal_dmm := true, dmm_resolution := 6.5, max_sample_rate := 450
      memory_readings := 500000, has_timestamp := true, has_alarm := true
      has_math := true, scpi_variant := "keysight_daq" }),
   ("DAQ973A",
    { model_name := "DAQ973A", manufacturer := "Keysight", num_slots := 3
      modules := []
      has_internal_dmm := false, dmm_resolution := 0, max_sample_rate := 450
      memory_readings := 500000, has_timestamp := true, has_alarm := true
      has_math := false, scpi_variant := "keysight_daq" })]

/-- `create_generic_daq_capability(idn_string)`: conservative generic
profile synthesized from the parsed manufacturer/model. -/
def create_generic_daq_capability (idn_string : String) : DAQCapability :=
  let parts := pySplitComma idn_string
  let manufacturer := if parts.length > 0 then pyStrip (parts.getD 0 "") else "Unknown"
  let model := if parts.length > 1 then pyStrip (parts.getD 1 "") else "Generic DAQ"
  { model_name := model
    manufacturer := manufacturer
    num_slots := 1
    modules :=
      [{ slot := 1
         module_type := "Generic"
         num_channels := 20
         channel_start := 101
         supported_functions := [.VOLTAGE_DC, .VOLTAGE_AC, .RESISTANCE_2W]
         description := "Generic Input Module" }]
    has_internal_dmm := true
    dmm_resolution := 5.5
    max_sample_rate := 100
    memory_readings := 10000
    has_timestamp := true
    has_alarm := false
    has_math := false
    scpi_variant := "generic" }

/-- `detect_daq_from_idn(idn_string)`: exact key match, then normalized
fuzzy match, then manufacturer-constrained partial match, else the generic
fallback. -/
def detect_daq_from_idn (idn_string : String) : DAQCapability :=
  let parts := pySplitComma idn_string
  if parts.length < 2 then create_generic_daq_capability idn_string
  else
    let manufacturer := pyStrip (parts.getD 0 "")
    let model_from_idn := pyStrip (parts.getD 1 "")
    match List.lookup model_from_idn DAQ_MODEL_REGISTRY with
    | some cap => cap
    | none =>
      let normalized_model := normalizeModel model_from_idn
      match DAQ_MODEL_REGISTRY.find? (fun p => normalizeModel p.1 == normalized_model) with
      | some p => p.2
      | none =>
        if ["Keysight", "Agilent", "HP"].any (fun mfr => containsSubstr manufacturer mfr) then
          match DAQ_MODEL_REGISTRY.find? (fun p => containsSubstr model_from_idn p.1) with
          | some p => p.2
          | none => create_generic_daq_capability idn_string
        else create_generic_daq_capability idn_string

/-- True iff some phase of `detect_daq_from_idn`'s matching cascade (exact
key, normalized fuzzy, manufacturer-constrained partial) hits a registry
entry; built from the same discriminants the source tests. -/
def registryMatches (idn_string : String) : Bool :=
  let parts := pySplitComma idn_string
  if parts.length < 2 then false
  else
    let manufacturer := pyStrip (parts.getD 0 "")
    let model_from_idn := pyStrip (parts.getD 1 "")
    (List.lookup model_from_idn DAQ_MODEL_REGISTRY).isSome ||
    (DAQ_MODEL_REGISTRY.find?
      (fun p => normalizeModel p.1 == normalizeModel model_from_idn)).isSome ||
    ((["Keysight", "Agilent", "HP"].any (fun mfr => containsSubstr manufacturer mfr)) &&
      (DAQ_MODEL_REGISTRY.find? (fun p => containsSubstr model_from_idn p.1)).isSome)

/-! ## Theorems: capability registry -/

lemma option_isSome_false {α : Type} {o : Option α} (h : o.isSome = false) : o = none := by
  cases o <;> simp_all

/-- C3: `detect_daq_from_idn` is total (it is a Lean function), and on any
identification string whose model matches no registry entry by exact,
normalized-fuzzy or manufacturer-constrained partial matching — including
malformed strings with fewer than two fields — it falls back to the
conservative generic profile: `scpi_variant = "generic"`,
`has_alarm = false`, `has_math = false`. -/
theorem detect_unmatched_yields_generic :
    ∀ idn, registryMatches idn = false →
      detect_daq_from_idn idn = create_generic_daq_capability idn ∧
      (detect_daq_from_idn idn).scpi_variant = "generic" ∧
      (detect_daq_from_idn idn).has_alarm = false ∧
      (detect_daq_from_idn idn).has_math = false := by
  intro idn h
  have hmain : detect_daq_from_idn idn = create_generic_daq_capability idn := by
    unfold detect_daq_from_idn
    unfold registryMatches at h
    by_cases hl : (pySplitComma idn).length < 2
    · rw [if_pos hl]
    · rw [if_neg hl] at h ⊢
      simp only [Bool.or_eq_false_iff, Bool.and_eq_false_iff] at h
      obtain ⟨⟨h1, h2⟩, h3⟩ := h
      replace h1 := option_isSome_false h1
      replace h2 := option_isSome_false h2
      rcases h3 with h3 | h3
      · simp only [h1, h2, h3, Bool.false_eq_true, if_false]
      · replace h3 := option_isSome_false h3
        simp only [h1, h2, h3]
        split <;> rfl
  exact ⟨hmain, by rw [hmain]; rfl, by rw [hmain]; rfl, by rw [hmain]; rfl⟩

/-- Witness for C3 at Scenario C: `"Acme Corp,Widget-9000,SN1,1.0"`
matches nothing, so the profile is generic with `has_alarm = false`. -/
theorem detect_unmatched_yields_generic_witness :
    detect_daq_from_idn "Acme Corp,Widget-9000,SN1,1.0" =
        create_generic_daq_capability "Acme Corp,Widget-9000,SN1,1.0" ∧
      (detect_daq_from_idn "Acme Corp,Widget-9000,SN1,1.0").scpi_variant = "generic" ∧
      (detect_daq_from_idn "Acme Corp,Widget-9000,SN1,1.0").has_alarm = false ∧
      (detect_daq_from_idn "Acme Corp,Widget-9000,SN1,1.0").has_math = false :=
  detect_unmatched_yields_generic "Acme Corp,Widget-9000,SN1,1.0" rfl

/-- C6: Scenario A resolves through the exact-match phase to the 34970A
registry entry (`model_name = "34970A"`, `scpi_variant = "keysight_daq"`),
and Scenario B (Agilent manufacturer, same model field) resolves to the
same profile. -/
theorem detect_34970A_keysight_and_agilent :
    (detect_daq_from_idn "Keysight Technologies,34970A,MY123,A.01.02").model_name = "34970A" ∧
    (detect_daq_from_idn "Keysight Technologies,34970A,MY123,A.01.02").scpi_variant
        = "keysight_daq" ∧
    detect_daq_from_idn "Agilent Technologies,34970A,MY123,A.01.02" =
      detect_daq_from_idn "Keysight Technologies,34970A,MY123,A.01.02" :=
  ⟨rfl, rfl, rfl⟩

/-! ## CommandCatalog (`scpi_control/daq_scpi_commands.py`) -/

/-- Failure of Python `str.format` on a template: a missing named field
(`KeyError(key)`) or a malformed template (`ValueError`; never reached on
the fixed command tables, which contain no brace escapes, nesting or
format specs). -/
inductive FmtErr where
  | keyError (key : String)
  | valueError
  deriving DecidableEq, Repr

/-- `template.format(**params)` scanner: literal mode (`none`) copies
characters, `{` enters key-accumulation mode (`some acc`, reversed), `}`
looks the key up and substitutes, an unterminated `{` is a `ValueError`. -/
def formatAux (params : List (String × String)) :
    List Char → Option (List Char) → Except FmtErr String
  | [], none => .ok ""
  | [], some _ => .error .valueError
  | '{' :: cs, none => formatAux params cs (some [])
  | '}' :: cs, some acc =>
    match List.lookup (String.mk acc.reverse) params with
    | some v => (formatAux params cs none).map (fun s => v ++ s)
    | none => .error (.keyError (String.mk acc.reverse))
  | c :: cs, none => (formatAux params cs none).map (fun s => String.mk [c] ++ s)
  | c :: cs, some acc => formatAux params cs (some (c :: acc))

/-- Python `template.format(**params)` (named fields only). -/
def pyFormat (template : String) (params : List (String × String)) : Except FmtErr String :=
  formatAux params template.toList none

/-- The named placeholders of a template, in textual order (same scan as
`formatAux`). -/
def placeholdersAux : List Char → Option (List Char) → List String
  | [], _ => []
  | '{' :: cs, none => placeholdersAux cs (some [])
  | '}' :: cs, some acc => String.mk acc.reverse :: placeholdersAux cs none
  | _ :: cs, none => placeholdersAux cs none
  | c :: cs, some acc => placeholdersAux cs (some (c :: acc))

/-- Placeholders of a template string. -/
def placeholders (template : String) : List String :=
  placeholdersAux template.toList none

/-- `DAQSCPICommandSet.GENERIC_COMMANDS` (insertion-ordered). -/
def GENERIC_COMMANDS : List (String × String) :=
  [("identify", "*IDN?"),
   ("reset", "*RST"),
   ("clear_status", "*CLS"),
   ("get_error", "SYST:ERR?"),
   ("operation_complete", "*OPC?"),
   ("configure_voltage_dc", "CONF:VOLT:DC {range},{resolution},{channels}"),
   ("configure_voltage_ac", "CONF:VOLT:AC {range},{resolution},{channels}"),
   ("configure_current_dc", "CONF:CURR:DC {range},{resolution},{channels}"),
   ("configure_current_ac", "CONF:CURR:AC {range},{resolution},{channels}"),
   ("configure_resistance_2w", "CONF:RES {range},{resolution},{channels}"),
   ("configure_resistance_4w", "CONF:FRES {range},{resolution},{channels}"),
   ("configure_frequency", "CONF:FREQ {range},{resolution},{channels}"),
   ("configure_period", "CONF:PER {range},{resolution},{channels}"),
   ("configure_temperature", "CONF:TEMP {sensor_type},{channels}"),
   ("set_scan_list", "ROUT:SCAN {channels}"),
   ("get_scan_list", "ROUT:SCAN?"),
   ("clear_scan_list", "ROUT:SCAN (@)"),
   ("set_channel_delay", "ROUT:CHAN:DEL {delay},{channels}"),
   ("get_channel_delay", "ROUT:CHAN:DEL? {channels}"),
   ("set_trigger_source", "TRIG:SOUR {source}"),
   ("get_trigger_source", "TRIG:SOUR?"),
   ("set_trigger_count", "TRIG:COUN {count}"),
   ("get_trigger_count", "TRIG:COUN?"),
   ("set_trigger_delay", "TRIG:DEL {delay}"),
   ("get_trigger_delay", "TRIG:DEL?"),
   ("set_trigger_timer", "TRIG:TIM {interval}"),
   ("get_trigger_timer", "TRIG:TIM?"),
   ("initiate", "INIT"),
   ("abort", "ABOR"),
   ("trigger", "*TRG"),
   ("read", "READ?"),
   ("fetch", "FETC?"),
   ("read_remove", "R? {max_readings}"),
   ("get_data_points", "DATA:POIN?"),
   ("clear_data", "DATA:DEL NVMEM"),
   ("measure_voltage_dc", "MEAS:VOLT:DC? {range},{resolution},{channels}"),
   ("measure_voltage_ac", "MEAS:VOLT:AC? {range},{resolution},{channels}"),
   ("measure_current_dc", "MEAS:CURR:DC? {range},{resolution},{channels}"),
   ("measure_current_ac", "MEAS:CURR:AC? {range},{resolution},{channels}"),
   ("measure_resistance_2w", "MEAS:RES? {range},{resolution},{channels}"),
   ("measure_resistance_4w", "MEAS:FRES? {range},{resolution},{channels}"),
   ("measure_frequency", "MEAS:FREQ? {range},{resolution},{channels}"),
   ("measure_temperature", "MEAS:TEMP? {sensor_type},{channels}"),
   ("get_scan_state", "ROUT:SCAN:STAT?")]

/-- `DAQSCPICommandSet.KEYSIGHT_DAQ_OVERRIDES` (insertion-ordered). -/
def KEYSIGHT_DAQ_OVERRIDES : List (String × String) :=
  [("configure_voltage_dc", "CONF:VOLT:DC {range},{resolution},{channels}"),
   ("configure_voltage_ac", "CONF:VOLT:AC {range},{resolution},{channels}"),
   ("configure_current_dc", "CONF:CURR:DC {range},{resolution},{channels}"),
   ("configure_current_ac", "CONF:CURR:AC {range},{resolution},{channels}"),
   ("configure_resistance_2w", "CONF:RES {range},{resolution},{channels}"),
   ("configure_resistance_4w", "CONF:FRES {range},{resolution},{channels}"),
   ("configure_temperature_tc", "CONF:TEMP TC,{tc_type},{channels}"),
   ("configure_temperature_rtd", "CONF:TEMP RTD,{rtd_type},{channels}"),
   ("configure_temperature_therm", "CONF:TEMP THER,{therm_type},{channels}"),
   ("set_sample_count", "SAMP:COUN {count}"),
   ("get_sample_count", "SAMP:COUN?"),
   ("set_trigger_source_immediate", "TRIG:SOUR IMM"),
   ("set_trigger_source_timer", "TRIG:SOUR TIM"),
   ("set_trigger_source_bus", "TRIG:SOUR BUS"),
   ("set_trigger_source_external", "TRIG:SOUR EXT"),
   ("set_data_format", "FORM:READ:ALAR {state}"),
   ("set_data_timestamp", "FORM:READ:TIME {state}"),
   ("set_data_channel", "FORM:READ:CHAN {state}"),
   ("set_data_unit", "FORM:READ:UNIT {state}"),
   ("set_alarm_high", "CALC:LIM:UPP {limit},{channels}"),
   ("get_alarm_high", "CALC:LIM:UPP? {channels}"),
   ("set_alarm_low", "CALC:LIM:LOW {limit},{channels}"),
   ("get_alarm_low", "CALC:LIM:LOW? {channels}"),
   ("set_alarm_enable", "CALC:LIM:STAT {state},{channels}"),
   ("get_alarm_enable", "CALC:LIM:STAT? {channels}"),
   ("set_scaling_gain", "CALC:SCAL:GAIN {gain},{channels}"),
   ("get_scaling_gain", "CALC:SCAL:GAIN? {channels}"),
   ("set_scaling_offset", "CALC:SCAL:OFFS {offset},{channels}"),
   ("get_scaling_offset", "CALC:SCAL:OFFS? {channels}"),
   ("set_scaling_enable", "CALC:SCAL:STAT {state},{channels}"),
   ("get_scaling_enable", "CALC:SCAL:STAT? {channels}"),
   ("configure_digitize", "ACQ:VOLT:DC {range},{channels}"),
   ("set_digitize_rate", "ACQ:SRAT {rate}"),
   ("get_digitize_rate", "ACQ:SRAT?"),
   ("set_monitor_channel", "ROUT:MON {channel}"),
   ("get_monitor_channel", "ROUT:MON?"),
   ("set_monitor_enable", "ROUT:MON:STAT {state}"),
   ("get_monitor_enable", "ROUT:MON:STAT?"),
   ("read_monitor", "ROUT:MON:DATA?"),
   ("get_module_info", "SYST:CTYP? {slot}")]

/-- A failure of `DAQSCPICommandSet.get_command`: the raised `KeyError`
for an unknown command, the `ValueError` re-raised from a missing template
parameter (its message names the command and the key), or a `ValueError`
escaping `str.format` itself. -/
inductive CatalogErr where
  | unknownCommand (variant name : String)
  | missingParameter (name key : String)
  | templateError
  deriving DecidableEq, Repr

/-- `template.format(**kwargs)` wrapped in the source's
`except KeyError: raise ValueError(f"Missing required parameter for
command '{command_name}': {e}")`. -/
def render_command (name template : String) (params : List (String × String)) :
    Except CatalogErr String :=
  match pyFormat template params with
  | .ok s => .ok s
  | .error (.keyError k) => .error (.missingParameter name k)
  | .error .valueError => .error .templateError

/-- `DAQSCPICommandSet.get_command(command_name, **kwargs)`: Keysight
overrides first when the variant is `"keysight_daq"`, then the generic
table, else `KeyError("Unknown command: ...")`. -/
def get_command (variant name : String) (params : List (String × String)) :
    Except CatalogErr String :=
  if variant = "keysight_daq" then
    match List.lookup name KEYSIGHT_DAQ_OVERRIDES with
    | some template => render_command name template params
    | none =>
      match List.lookup name GENERIC_COMMANDS with
      | some template => render_command name template params
      | none => .error (.unknownCommand variant name)
  else
    match List.lookup name GENERIC_COMMANDS with
    | some template => render_command name template params
    | none => .error (.unknownCommand variant name)

/-- `DAQSCPICommandSet.supports_command(command_name)`. -/
def supports_command (variant name : String) : Bool :=
  if variant = "keysight_daq" && (List.lookup name KEYSIGHT_DAQ_OVERRIDES).isSome then
    true
  else
    (List.lookup name GENERIC_COMMANDS).isSome

/-- The template `get_command` would render for a given variant and
operation (same lookup cascade, without rendering). -/
def selected_template (variant name : String) : Option String :=
  if variant = "keysight_daq" then
    match List.lookup name KEYSIGHT_DAQ_OVERRIDES with
    | some template => some template
    | none => List.lookup name GENERIC_COMMANDS
  else List.lookup name GENERIC_COMMANDS

/-! ## Theorems: command catalog -/

/-- If some placeholder of the remaining template has no supplied value,
the format scan fails with a `KeyError` naming a genuinely missing
placeholder (the first one, as Python does) — it never produces a string. -/
lemma formatAux_missing (params : List (String × String)) :
    ∀ (cs : List Char) (st : Option (List Char)),
      (∃ k ∈ placeholdersAux cs st, List.lookup k params = none) →
      ∃ k, k ∈ placeholdersAux cs st ∧ List.lookup k params = none ∧
        formatAux params cs st = .error (.keyError k) := by
  intro cs st
  induction cs, st using placeholdersAux.induct with
  | case1 st => simp [placeholdersAux]
  | case2 cs ih =>
    intro h
    simp only [placeholdersAux] at h ⊢
    obtain ⟨k, hk, hl⟩ := ih h
    exact ⟨k, hk, hl.1, by simpa [formatAux] using hl.2⟩
  | case3 cs acc ih =>
    intro h
    simp only [placeholdersAux] at h ⊢
    cases hkey : List.lookup (String.mk acc.reverse) params with
    | none =>
      exact ⟨String.mk acc.reverse, by simp, hkey, by simp [formatAux, hkey]⟩
    | some v =>
      have h2 : ∃ k ∈ placeholdersAux cs none, List.lookup k params = none := by
        obtain ⟨k, hk, hl⟩ := h
        rcases List.mem_cons.mp hk with rfl | hk2
        · exact absurd hl (by simp [hkey])
        · exact ⟨k, hk2, hl⟩
      obtain ⟨k, hk, hl, hf⟩ := ih h2
      refine ⟨k, List.mem_cons_of_mem _ hk, hl, ?_⟩
      simp [formatAux, hkey, hf, Except.map]
  | case4 head cs hne ih =>
    intro h
    have hc : ¬(head = '{') := hne
    simp only [placeholdersAux] at h ⊢
    obtain ⟨k, hk, hl, hf⟩ := ih h
    refine ⟨k, hk, hl, ?_⟩
    simp [formatAux, hc, hf, Except.map]
  | case5 c cs acc hne ih =>
    intro h
    have hc : ¬(c = '}') := hne
    simp only [placeholdersAux] at h ⊢
    obtain ⟨k, hk, hl, hf⟩ := ih h
    exact ⟨k, hk, hl, by simpa [formatAux, hc] using hf⟩

/-- C4: an operation present in the generic table is never reported as
unsupported, whatever the variant; and when it is not overridden (or the
variant is not `"keysight_daq"`), `get_command` renders the generic
template. -/
theorem generic_operations_always_supported :
    (∀ variant name, (List.lookup name GENERIC_COMMANDS).isSome = true →
        supports_command variant name = true) ∧
    (∀ variant name template params,
        List.lookup name GENERIC_COMMANDS = some template →
        (variant = "keysight_daq" → List.lookup name KEYSIGHT_DAQ_OVERRIDES = none) →
        get_command variant name params = render_command name template params) := by
  constructor
  · intro variant name hg
    unfold supports_command
    split
    · rfl
    · exact hg
  · intro variant name template params hg hov
    unfold get_command
    by_cases hv : variant = "keysight_daq"
    · simp only [if_pos hv, hov hv, hg]
    · simp only [if_neg hv, hg]

/-- Witness for C4: the unknown variant "acme" still supports and resolves
the generic-only operation "identify". -/
theorem generic_operations_always_supported_witness :
    supports_command "acme" "identify" = true ∧
    get_command "acme" "identify" [] = render_command "identify" "*IDN?" [] :=
  ⟨generic_operations_always_supported.1 "acme" "identify" rfl,
   generic_operations_always_supported.2 "acme" "identify" "*IDN?" []
     rfl (fun hv => absurd hv (by decide))⟩

/-- C5: whenever the template `get_command` selects has a placeholder with
no supplied value, the call fails with the missing-parameter error naming
the operation and a missing key; no partially rendered string is returned. -/
theorem get_command_missing_parameter :
    ∀ variant name params template,
      selected_template variant name = some template →
      (∃ k ∈ placeholders template, List.lookup k params = none) →
      ∃ k, k ∈ placeholders template ∧ List.lookup k params = none ∧
        get_command variant name params = .error (.missingParameter name k) := by
  intro variant name params template hsel hmiss
  simp only [placeholders] at hmiss ⊢
  obtain ⟨k, hk, hl, hf⟩ := formatAux_missing params template.toList none hmiss
  refine ⟨k, hk, hl, ?_⟩
  have hrender : render_command name template params = .error (.missingParameter name k) := by
    unfold render_command pyFormat
    rw [hf]
  unfold get_command
  unfold selected_template at hsel
  by_cases hv : variant = "keysight_daq"
  · rw [if_pos hv] at hsel ⊢
    cases hov : List.lookup name KEYSIGHT_DAQ_OVERRIDES with
    | some t =>
      simp only [hov] at hsel
      injection hsel with ht
      simp only [hov, ht]
      exact hrender
    | none =>
      simp only [hov] at hsel
      simp only [hov, hsel]
      exact hrender
  · rw [if_neg hv] at hsel ⊢
    simp only [hsel]
    exact hrender

/-- Witness for C5: `configure_voltage_dc` with only `range` supplied
fails with the missing-parameter error (the missing key is
`"resolution"`). -/
theorem get_command_missing_parameter_witness :
    ∃ k, k ∈ placeholders "CONF:VOLT:DC {range},{resolution},{channels}" ∧
      List.lookup k [("range", "AUTO")] = none ∧
      get_command "generic" "configure_voltage_dc" [("range", "AUTO")] =
        .error (.missingParameter "configure_voltage_dc" k) :=
  get_command_missing_parameter "generic" "configure_voltage_dc" [("range", "AUTO")]
    "CONF:VOLT:DC {range},{resolution},{channels}" rfl
    ⟨"resolution", by decide, rfl⟩

/-! ## `format_channel_list` (`scpi_control/daq_scpi_commands.py`) -/

/-- Python `s.startswith(pre)`. -/
def pyStartsWith (s pre : String) : Bool := pre.toList.isPrefixOf s.toList

/-- The documented input shapes of `format_channel_list`: a single int, a
list/tuple of ints, or a string (any other type raises `ValueError` and is
outside this datatype). -/
inductive PyChannels where
  | int (n : Int)
  | list (xs : List Int)
  | str (s : String)
  deriving DecidableEq, Repr

/-- `format_channel_list(channels)`: strings already starting with `"(@"`
pass through, other strings and ints are wrapped in `"(@...)"`, int
sequences are comma-joined then wrapped (Python `str(ch)` on an int agrees
with `toString` on `Int`). -/
def format_channel_list : PyChannels → String
  | .str s => if pyStartsWith s "(@" then s else "(@" ++ s ++ ")"
  | .int n => "(@" ++ toString n ++ ")"
  | .list xs => "(@" ++ String.intercalate "," (xs.map toString) ++ ")"

/-! ## AWGOutput channel setters (`scpi_control/awg_output.py`) -/

/-- `ChannelSpec` (`siglent/awg_models.py`), the limits each setter
validates against. -/
structure ChannelSpec where
  channel_num : Nat
  max_frequency : ℚ
  max_amplitude : ℚ
  min_amplitude : ℚ
  max_offset : ℚ
  frequency_resolution : ℚ
  amplitude_resolution : ℚ
  deriving DecidableEq, Repr

/-- A command descriptor handed to `self._awg._get_command(...)` and then
written: constructing one is exactly the act of rendering a command. -/
inductive AWGCmd where
  | setFrequency (ch : Nat) (frequency : ℚ)
  | setAmplitude (ch : Nat) (amplitude : ℚ)
  | setOffset (ch : Nat) (offset : ℚ)
  deriving DecidableEq, Repr

/-- `exceptions.InvalidParameterError` (its Python message embeds the
offending value and the limits). -/
inductive AWGErr where
  | invalidParameterError
  deriving DecidableEq, Repr

/-- Outcome of a setter call: the raised error, if any, plus the full
trace of commands rendered-and-written before returning/raising. -/
structure SetterResult where
  error : Option AWGErr
  writes : List AWGCmd
  deriving DecidableEq, Repr

/-- `AWGOutput.frequency` setter: `if not 0 < freq_hz <= max_frequency`
raise before `_get_command`/`write`; otherwise render and write. -/
def frequency_setter (spec : ChannelSpec) (freq_hz : ℚ) : SetterResult :=
  if ¬(0 < freq_hz ∧ freq_hz ≤ spec.max_frequency) then
    ⟨some .invalidParameterError, []⟩
  else
    ⟨none, [.setFrequency spec.channel_num freq_hz]⟩

/-- `AWGOutput.amplitude` setter: `if not min_amplitude <= vpp <=
max_amplitude` raise before `_get_command`/`write`. -/
def amplitude_setter (spec : ChannelSpec) (vpp : ℚ) : SetterResult :=
  if ¬(spec.min_amplitude ≤ vpp ∧ vpp ≤ spec.max_amplitude) then
    ⟨some .invalidParameterError, []⟩
  else
    ⟨none, [.setAmplitude spec.channel_num vpp]⟩

/-- `AWGOutput.offset` setter: `if abs(volts) > max_offset` raise before
`_get_command`/`write`. -/
def offset_setter (spec : ChannelSpec) (volts : ℚ) : SetterResult :=
  if |volts| > spec.max_offset then
    ⟨some .invalidParameterError, []⟩
  else
    ⟨none, [.setOffset spec.channel_num volts]⟩

/-! ## SocketConnection error paths (`siglent/connection/socket.py`) -/

/-- Host/port/timeout/connected state of a `SocketConnection`. -/
structure SocketConn where
  host : String
  port : Nat
  timeout : ℚ
  connected : Bool
  deriving DecidableEq, Repr

/-- What the OS socket does during one operation. -/
inductive NetEvent where
  | ok
  | timedOut
  | sockError (emsg : String)
  deriving DecidableEq, Repr

/-- Exceptions raised by the transport (`siglent/exceptions.py`). -/
inductive TransportErr where
  | connectionError (msg : String)
  | timeoutError (msg : String)
  deriving DecidableEq, Repr

/-- Python `s.endswith(suf)`. -/
def pyEndsWith (s suf : String) : Bool :=
  suf.toList.reverse.isPrefixOf s.toList.reverse

/-- `SocketConnection.write(command)`: not-connected check, newline
append, `sendall`; returns the bytes sent on success.  The message
strings are exactly the source's f-strings. -/
def socket_write (conn : SocketConn) (command : String) (net : NetEvent) :
    Except TransportErr String :=
  if ¬conn.connected then
    .error (.connectionError "Not connected to oscilloscope")
  else
    let cmd := if pyEndsWith command "\n" then command else command ++ "\n"
    match net with
    | .ok => .ok cmd
    | .timedOut => .error (.timeoutError ("Command timeout: " ++ cmd))
    | .sockError e => .error (.connectionError ("Write error: " ++ e))

/-- `SocketConnection.read()`: not-connected check, receive, then
`.strip()` and `.lstrip("\x00")` on success. -/
def socket_read (conn : SocketConn) (net : NetEvent) (data : String) :
    Except TransportErr String :=
  if ¬conn.connected then
    .error (.connectionError "Not connected to oscilloscope")
  else
    match net with
    | .ok => .ok (String.mk ((pyStrip data).toList.dropWhile (· == '\x00')))
    | .timedOut => .error (.timeoutError "Read timeout")
    | .sockError e => .error (.connectionError ("Read error: " ++ e))

/-- `SocketConnection.read_raw()` (drain mode): not-connected check;
`socket.timeout` during the drain is swallowed (`pass`), only
`socket.error` raises. -/
def socket_read_raw (conn : SocketConn) (net : NetEvent) (data : List Nat) :
    Except TransportErr (List Nat) :=
  if ¬conn.connected then
    .error (.connectionError "Not connected to oscilloscope")
  else
    match net with
    | .sockError e => .error (.connectionError ("Read error: " ++ e))
    | _ => .ok data

/-! ## Theorems: channel-list formatting, setters, transport -/

lemma pyStartsWith_paren_append (t : String) : pyStartsWith ("(@" ++ t) "(@" = true := by
  unfold pyStartsWith
  have h : ("(@" ++ t).toList = '(' :: '@' :: t.toList := by
    show ("(@" ++ t).data = _
    rw [String.data_append]
    rfl
  rw [h]
  simp [List.isPrefixOf]

/-- C10: `format_channel_list` on each documented input shape, and
idempotence on its own output: every output starts with `"(@"`, so feeding
it back returns it unchanged. -/
theorem format_channel_list_shapes_and_idempotent :
    (∀ n : Int, format_channel_list (.int n) = "(@" ++ toString n ++ ")") ∧
    (∀ xs : List Int, format_channel_list (.list xs) =
        "(@" ++ String.intercalate "," (xs.map toString) ++ ")") ∧
    (∀ s, pyStartsWith s "(@" = true → format_channel_list (.str s) = s) ∧
    (∀ x, format_channel_list (.str (format_channel_list x)) = format_channel_list x) := by
  refine ⟨fun n => rfl, fun xs => rfl, ?_, ?_⟩
  · intro s hs
    simp [format_channel_list, hs]
  · intro x
    have hs : pyStartsWith (format_channel_list x) "(@" = true := by
      cases x with
      | int n =>
        show pyStartsWith ("(@" ++ toString n ++ ")") "(@" = true
        rw [String.append_assoc]
        exact pyStartsWith_paren_append _
      | list xs =>
        show pyStartsWith ("(@" ++ String.intercalate "," (xs.map toString) ++ ")") "(@" = true
        rw [String.append_assoc]
        exact pyStartsWith_paren_append _
      | str s =>
        by_cases h : pyStartsWith s "(@" = true
        · simp only [format_channel_list, h, if_true]
        · have h2 : pyStartsWith s "(@" = false := by simpa using h
          simp only [format_channel_list, h2, Bool.false_eq_true, if_false]
          rw [String.append_assoc]
          exact pyStartsWith_paren_append _
    have heq : ∀ s, format_channel_list (.str s) =
        if pyStartsWith s "(@" = true then s else "(@" ++ s ++ ")" := fun s => rfl
    rw [heq, if_pos hs]

/-- Witness for C10: the already-formatted string `"(@101:103)"` passes
through unchanged. -/
theorem format_channel_list_shapes_and_idempotent_witness :
    format_channel_list (.str "(@101:103)") = "(@101:103)" :=
  format_channel_list_shapes_and_idempotent.2.2.1 "(@101:103)" (by decide)

/-- C9: each AWG channel setter rejects an out-of-limit value with
`InvalidParameterError` and an empty write trace — no command is rendered
or written on the error path, so the instrument never sees the value. -/
theorem setters_validate_before_write :
    (∀ (spec : ChannelSpec) (vpp : ℚ),
        ¬(spec.min_amplitude ≤ vpp ∧ vpp ≤ spec.max_amplitude) →
        amplitude_setter spec vpp = ⟨some .invalidParameterError, []⟩) ∧
    (∀ (spec : ChannelSpec) (freq_hz : ℚ),
        ¬(0 < freq_hz ∧ freq_hz ≤ spec.max_frequency) →
        frequency_setter spec freq_hz = ⟨some .invalidParameterError, []⟩) ∧
    (∀ (spec : ChannelSpec) (volts : ℚ), |volts| > spec.max_offset →
        offset_setter spec volts = ⟨some .invalidParameterError, []⟩) := by
  refine ⟨?_, ?_, ?_⟩
  · intro spec v h
    unfold amplitude_setter
    rw [if_pos h]
  · intro spec v h
    unfold frequency_setter
    rw [if_pos h]
  · intro spec v h
    unfold offset_setter
    rw [if_pos h]

/-- Witness for C9 on a concrete channel spec (limits of an SDG-class
channel): amplitude 20 Vpp, frequency -5 Hz and offset 6 V are all
rejected without a write. -/
theorem setters_validate_before_write_witness :
    amplitude_setter ⟨1, 25000000, 10, 1/500, 5, 1/10, 1/10000⟩ 20 =
        ⟨some .invalidParameterError, []⟩ ∧
    frequency_setter ⟨1, 25000000, 10, 1/500, 5, 1/10, 1/10000⟩ (-5) =
        ⟨some .invalidParameterError, []⟩ ∧
    offset_setter ⟨1, 25000000, 10, 1/500, 5, 1/10, 1/10000⟩ 6 =
        ⟨some .invalidParameterError, []⟩ :=
  ⟨setters_validate_before_write.1 _ 20 (by norm_num),
   setters_validate_before_write.2.1 _ (-5) (by norm_num),
   setters_validate_before_write.2.2 _ 6 (by norm_num)⟩

/-- C7: the spec says every transport error message embeds the failing
command and the host:port; evaluating the transport at concrete failures
shows otherwise.  On connection `192.168.1.100:5024`: the not-connected
write error is the constant `"Not connected to oscilloscope"` (neither
command nor host:port), the write timeout message has the command but not
the host:port, the read timeout message is the constant `"Read timeout"`,
and a read socket error reports only the OS message. -/
theorem socket_error_messages_lack_host_port :
    socket_write ⟨"192.168.1.100", 5024, 5, false⟩ "*IDN?" .ok =
        .error (.connectionError "Not connected to oscilloscope") ∧
    containsSubstr "Not connected to oscilloscope" "192.168.1.100:5024" = false ∧
    containsSubstr "Not connected to oscilloscope" "*IDN?" = false ∧
    socket_write ⟨"192.168.1.100", 5024, 5, true⟩ "*IDN?" .timedOut =
        .error (.timeoutError "Command timeout: *IDN?\n") ∧
    containsSubstr "Command timeout: *IDN?\n" "192.168.1.100:5024" = false ∧
    socket_read ⟨"192.168.1.100", 5024, 5, true⟩ .timedOut "" =
        .error (.timeoutError "Read timeout") ∧
    containsSubstr "Read timeout" "192.168.1.100:5024" = false ∧
    socket_read ⟨"192.168.1.100", 5024, 5, true⟩ (.sockError "boom") "" =
        .error (.connectionError "Read error: boom") ∧
    containsSubstr "Read error: boom" "192.168.1.100:5024" = false ∧
    socket_read_raw ⟨"192.168.1.100", 5024, 5, false⟩ .ok [] =
        .error (.connectionError "Not connected to oscilloscope") :=
  ⟨rfl, rfl, rfl, rfl, rfl, rfl, rfl, rfl, rfl, rfl⟩
